import Mathlib

/-!
Shallow embedding of the authentication and session-lifecycle subsystem of
enhancedchannelmanager (src/backend/auth/routes.py, src/backend/auth/settings.py),
together with theorems settling the frozen claims about it.

Database rows are modelled as Lean structures, the database as lists of rows
(in insertion order, as SQLAlchemy `query(...).first()` / `.all()` scan them).
Collaborators whose code lives outside the staged sources (bcrypt hashing,
the JWT token service, the filesystem) enter as function parameters, so each
route handler is a pure function from its inputs and the database state to a
result and the new database state.  Mutations of ORM objects take effect only
at `session.commit()`; error paths raise before committing, so they return
the database unchanged.
-/

namespace ECM

/-- `models.User` row as used by `auth/routes.py` (times are seconds). -/
structure UserRow where
  id : Nat
  username : String
  email : Option String := none
  password_hash : Option String := none
  is_admin : Bool := false
  is_active : Bool := true
  auth_provider : String := "local"
  external_id : Option String := none
  updated_at : Option Nat := none
  last_login_at : Option Nat := none
deriving Repr, DecidableEq

/-- `models.UserIdentity` row: one credential-provider link of a user. -/
structure IdentityRow where
  id : Nat
  user_id : Nat
  provider : String
  identifier : String
  external_id : Option String := none
  last_used_at : Option Nat := none
deriving Repr, DecidableEq

/-- `models.UserSession` row: one row per issued refresh token (hashed). -/
structure SessionRow where
  id : Nat
  user_id : Nat
  refresh_token_hash : String
  is_revoked : Bool := false
  expires_at : Nat
  last_used_at : Option Nat := none
deriving Repr, DecidableEq

/-- `models.PasswordResetToken` row: single-use, time-boxed reset token. -/
structure ResetTokenRow where
  id : Nat
  user_id : Nat
  token_hash : String
  expires_at : Nat
  used_at : Option Nat := none
deriving Repr, DecidableEq

/-- The relational store reachable from the auth routes. -/
structure DB where
  users : List UserRow := []
  identities : List IdentityRow := []
  sessions : List SessionRow := []
  resetTokens : List ResetTokenRow := []
deriving Repr, DecidableEq

/-- Replace the first element satisfying `p` by its image under `f`
(SQLAlchemy: mutate the object `.first()` returned, then commit). -/
def updateFirst (p : α → Bool) (f : α → α) : List α → List α
  | [] => []
  | x :: xs => if p x then f x :: xs else x :: updateFirst p f xs

/-- Remove the first element satisfying `p` (SQLAlchemy `session.delete(obj)`
on the object `.first()` returned, under primary-key uniqueness). -/
def removeFirst (p : α → Bool) : List α → List α
  | [] => []
  | x :: xs => if p x then xs else x :: removeFirst p xs

/-- `auth/settings.py` `JWTSettings` with its defaults. -/
structure JWTSettings where
  secret_key : String := ""
  algorithm : String := "HS256"
  access_token_expire_minutes : Nat := 30
  refresh_token_expire_days : Nat := 7
deriving Repr, DecidableEq

/-- `auth/settings.py` `SessionSettings` with its defaults. -/
structure SessionSettings where
  max_sessions_per_user : Nat := 5
  inactivity_timeout_minutes : Nat := 0
  extend_on_activity : Bool := true
deriving Repr, DecidableEq

/-- `auth/settings.py` `LocalAuthSettings` with its defaults. -/
structure LocalAuthSettings where
  enabled : Bool := true
  min_password_length : Nat := 8
  require_uppercase : Bool := true
  require_lowercase : Bool := true
  require_number : Bool := true
  require_special : Bool := false
deriving Repr, DecidableEq

/-- `auth/settings.py` `DispatcharrAuthSettings` with its defaults. -/
structure DispatcharrAuthSettings where
  enabled : Bool := false
  use_dispatcharr_auth : Bool := false
  auto_create_users : Bool := true
deriving Repr, DecidableEq

/-- `auth/settings.py` `AuthSettings` container with its defaults. -/
structure AuthSettings where
  setup_complete : Bool := false
  primary_auth_mode : String := "local"
  require_auth : Bool := true
  jwt : JWTSettings := {}
  session : SessionSettings := {}
  localAuth : LocalAuthSettings := {}
  dispatcharr : DispatcharrAuthSettings := {}
deriving Repr, DecidableEq

/-! ## Local login (`auth/routes.py` `login`, lines 442-538) -/

/-- Outcome of a route handler that returns a user payload or raises
`HTTPException(status_code, detail)`. -/
inductive LoginResult where
  | ok (userId : Nat)
  | httpError (status : Nat) (detail : String)
deriving Repr, DecidableEq

/-- Python truthiness of `user.password_hash`: falsy when NULL or empty. -/
def pwHashMissing : Option String → Bool
  | none => true
  | some h => h == ""

/-- `login` lines 458-468: identity-table lookup for provider `local`,
falling back to a direct username lookup for legacy accounts. -/
def findLoginUser (db : DB) (username : String) : Option UserRow :=
  match db.identities.find? (fun i => i.provider == "local" && i.identifier == username) with
  | some i => db.users.find? (fun u => u.id == i.user_id)
  | none => db.users.find? (fun u => u.username == username)

/-- `login` lines 478-481: whether the user has a `local` identity row. -/
def hasLocalIdentity (db : DB) (uid : Nat) : Bool :=
  (db.identities.find? (fun i => i.user_id == uid && i.provider == "local")).isSome

/-- `auth/routes.py` `login`: authenticate a username/password pair.
`verify` is `auth.password.verify_password`, `hashToken` is
`auth.tokens.hash_token`, `refreshTok` the freshly issued refresh token and
`sid` the session row id the insert assigns. -/
def login (verify : String → String → Bool) (hashToken : String → String)
    (refreshTok : String) (now : Nat) (settings : AuthSettings) (sid : Nat)
    (db : DB) (username password : String) : LoginResult × DB :=
  match findLoginUser db username with
  | none => (.httpError 401 "Invalid username or password", db)
  | some user =>
    if !hasLocalIdentity db user.id && user.auth_provider != "local" then
      (.httpError 401 "Please use your configured authentication provider to log in", db)
    else if pwHashMissing user.password_hash
        || !(verify password (user.password_hash.getD "")) then
      (.httpError 401 "Invalid username or password", db)
    else if !user.is_active then
      (.httpError 401 "User account is disabled", db)
    else
      let identities :=
        match db.identities.find? (fun i => i.provider == "local" && i.identifier == username) with
        | some i =>
          updateFirst (fun j => j.id == i.id) (fun j => { j with last_used_at := some now })
            db.identities
        | none => db.identities
      let newSession : SessionRow :=
        { id := sid, user_id := user.id, refresh_token_hash := hashToken refreshTok,
          is_revoked := false,
          expires_at := now + settings.jwt.refresh_token_expire_days * 86400,
          last_used_at := none }
      let users := updateFirst (fun u => u.id == user.id)
        (fun u => { u with last_login_at := some now }) db.users
      (.ok user.id,
        { db with users := users, identities := identities,
                  sessions := db.sessions ++ [newSession] })

/-! ## Token refresh (`auth/routes.py` `refresh_tokens`, lines 606-671) -/

/-- Claims dictionary of a decoded token, as `refresh_tokens` reads it
(`claims.get("type")`, `claims.get("sub")`). -/
structure TokenClaims where
  sub : Option Nat := none
  username : Option String := none
  typ : Option String := none
  iat : Nat := 0
  exp : Nat := 0
deriving Repr, DecidableEq

/-- Outcome of `auth.tokens.decode_token`: claims, `TokenExpiredError`, or
`InvalidTokenError` (with its message). -/
inductive DecodeResult where
  | ok (claims : TokenClaims)
  | expired
  | invalid (msg : String)
deriving Repr, DecidableEq

/-- Outcome of the refresh route: a fresh token pair, or
`AuthenticationError(msg)`. -/
inductive RefreshResult where
  | refreshed (newAccess newRefresh : String)
  | authError (msg : String)
deriving Repr, DecidableEq

/-- `auth/routes.py` `refresh_tokens`: rotate a refresh token.  `decode` is
`auth.tokens.decode_token` at the request time, `hashToken` is
`auth.tokens.hash_token`, and `newAccess`/`newRefresh` are the pair
`rotate_refresh_token` issues on success. -/
def refresh_tokens (decode : String → DecodeResult) (hashToken : String → String)
    (newAccess newRefresh : String) (now : Nat) (settings : AuthSettings)
    (db : DB) (tok : Option String) : RefreshResult × DB :=
  match tok with
  | none => (.authError "No refresh token provided", db)
  | some refresh_token =>
    match decode refresh_token with
    | .expired => (.authError "Refresh token expired", db)
    | .invalid e => (.authError ("Invalid refresh token: " ++ e), db)
    | .ok claims =>
      if claims.typ != some "refresh" then
        (.authError "Invalid token type", db)
      else
        match claims.sub with
        | none => (.authError "Invalid token payload", db)
        | some user_id =>
          let token_hash := hashToken refresh_token
          match db.sessions.find?
              (fun s => s.refresh_token_hash == token_hash && !s.is_revoked) with
          | none => (.authError "Session not found or revoked", db)
          | some user_session =>
            if user_session.expires_at < now then
              (.authError "Session expired", db)
            else
              match db.users.find? (fun u => u.id == user_id) with
              | none => (.authError "User not found or disabled", db)
              | some user =>
                if !user.is_active then
                  (.authError "User not found or disabled", db)
                else
                  let sessions := updateFirst
                    (fun s => s.refresh_token_hash == token_hash && !s.is_revoked)
                    (fun s => { s with
                      refresh_token_hash := hashToken newRefresh,
                      last_used_at := some now,
                      expires_at := now + settings.jwt.refresh_token_expire_days * 86400 })
                    db.sessions
                  (.refreshed newAccess newRefresh, { db with sessions := sessions })

/-! ## Password reset (`auth/routes.py` `forgot_password` lines 748-791,
`reset_password` lines 794-856) -/

/-- `auth.password.validate_password` result shape (`PasswordValidationResult`). -/
structure PasswordValidationResult where
  valid : Bool
  error : Option String := none
deriving Repr, DecidableEq

/-- The fixed anti-enumeration response of `forgot_password`. -/
def forgotPasswordMessage : String :=
  "If an account with that email exists, a password reset link has been sent."

/-- `auth/routes.py` `forgot_password`: always answers with the fixed message;
creates a reset-token row (hash of a fresh raw token, 1-hour expiry) only for
an active, local-provider user with the given email.  `hashPassword` is
`auth.password.hash_password`, `rawToken` the fresh `secrets.token_urlsafe(32)`
value, `newId` the row id the insert assigns. -/
def forgot_password (hashPassword : String → String) (rawToken : String)
    (now : Nat) (newId : Nat) (db : DB) (email : String) : String × DB :=
  match db.users.find? (fun u => u.email == some email) with
  | some user =>
    if user.is_active && user.auth_provider == "local" then
      let reset : ResetTokenRow :=
        { id := newId, user_id := user.id, token_hash := hashPassword rawToken,
          expires_at := now + 3600, used_at := none }
      (forgotPasswordMessage, { db with resetTokens := db.resetTokens ++ [reset] })
    else
      (forgotPasswordMessage, db)
  | none => (forgotPasswordMessage, db)

/-- Outcome of the reset-password route. -/
inductive ResetResult where
  | ok
  | httpError (status : Nat) (detail : String)
deriving Repr, DecidableEq

/-- `auth/routes.py` `reset_password`: scan the unused reset tokens in row
order, verifying the presented raw token against each stored bcrypt hash;
reject expired tokens; on success update the password hash and set `used_at`
in the same commit.  `verify` is `auth.password.verify_password`, `validate`
is `auth.password.validate_password`, `newHash` the bcrypt hash of the new
password. -/
def reset_password (verify : String → String → Bool)
    (validate : String → Option String → PasswordValidationResult)
    (newHash : String) (now : Nat)
    (db : DB) (rawToken newPassword : String) : ResetResult × DB :=
  match (db.resetTokens.filter (fun t => t.used_at.isNone)).find?
      (fun t => verify rawToken t.token_hash) with
  | none => (.httpError 400 "Invalid or expired reset token", db)
  | some valid_token =>
    if valid_token.expires_at < now then
      (.httpError 400 "Reset token has expired", db)
    else
      match db.users.find? (fun u => u.id == valid_token.user_id) with
      | none => (.httpError 400 "Invalid or expired reset token", db)
      | some user =>
        if !user.is_active then
          (.httpError 400 "Invalid or expired reset token", db)
        else
          let pwres := validate newPassword (some user.username)
          if !pwres.valid then
            (.httpError 422 (pwres.error.getD ""), db)
          else
            let users := updateFirst (fun u => u.id == valid_token.user_id)
              (fun u => { u with password_hash := some newHash, updated_at := some now })
              db.users
            let tokens := updateFirst
              (fun t => t.used_at.isNone && verify rawToken t.token_hash)
              (fun t => { t with used_at := some now }) db.resetTokens
            (.ok, { db with users := users, resetTokens := tokens })

/-! ## Identity unlinking (`auth/routes.py` `unlink_identity` lines 1628-1673,
`remove_user_identity` lines 1460-1481) -/

/-- Outcome of the unlink-identity route. -/
inductive UnlinkResult where
  | ok
  | httpError (status : Nat) (detail : String)
deriving Repr, DecidableEq

/-- `auth/routes.py` `unlink_identity`: refuse to unlink when the identity is
not the caller's, and refuse to remove the caller's last identity. -/
def unlink_identity (db : DB) (identity_id current_user_id : Nat) : UnlinkResult × DB :=
  match db.identities.find?
      (fun i => i.id == identity_id && i.user_id == current_user_id) with
  | none => (.httpError 404 "Identity not found", db)
  | some _identity =>
    let identity_count :=
      (db.identities.filter (fun i => i.user_id == current_user_id)).length
    if identity_count ≤ 1 then
      (.httpError 400 "Cannot unlink your last identity - you would be locked out", db)
    else
      (.ok, { db with
        identities := removeFirst (fun i => i.id == identity_id) db.identities })

/-- `auth/routes.py` `remove_user_identity`: helper returning `False` rather
than deleting the user's only identity; otherwise deletes the rows matching
both the identity id and the user id and reports whether any row went. -/
def remove_user_identity (db : DB) (identity_id user_id : Nat) : Bool × DB :=
  let identity_count := (db.identities.filter (fun i => i.user_id == user_id)).length
  if identity_count ≤ 1 then
    (false, db)
  else
    let deleted := (db.identities.filter
      (fun i => i.id == identity_id && i.user_id == user_id)).length
    (!(deleted == 0),
      { db with identities :=
          db.identities.filter (fun i => !(i.id == identity_id && i.user_id == user_id)) })

/-! ## Settings persistence (`auth/settings.py` `save_auth_settings` lines
153-174, `get_auth_settings` lines 184-186) -/

/-- How the filesystem behaves on one save attempt: `CONFIG_DIR.mkdir` either
succeeds or raises `PermissionError`/`OSError`; `write_text` (together with
`json.dumps`) succeeds, raises `PermissionError`/`OSError`, or raises some
other exception. -/
inductive WriteBehavior where
  | success
  | osError
  | otherError
deriving Repr, DecidableEq

/-- One save attempt's filesystem environment. -/
structure FsEnv where
  mkdirOk : Bool
  write : WriteBehavior
deriving Repr, DecidableEq

/-- A Python call either returns a value or propagates an exception. -/
inductive SaveResult where
  | returned (ok : Bool)
  | raised
deriving Repr, DecidableEq

/-- `auth/settings.py` `save_auth_settings`: attempt to persist, caching the
value in memory on the return paths; the generic-exception path re-raises
without touching the cache.  The state threaded through is the module-level
`_cached_auth_settings`. -/
def save_auth_settings (env : FsEnv) (cache : Option AuthSettings)
    (s : AuthSettings) : SaveResult × Option AuthSettings :=
  if !env.mkdirOk then
    (.returned false, some s)
  else
    match env.write with
    | .success => (.returned true, some s)
    | .osError => (.returned false, some s)
    | .otherError => (.raised, cache)

/-- `auth/settings.py` `load_auth_settings`: the cached value when present;
`fromDisk` stands for the value the uncached path produces from the config
file (or the generated defaults). -/
def load_auth_settings (cache : Option AuthSettings) (fromDisk : AuthSettings) :
    AuthSettings :=
  match cache with
  | some s => s
  | none => fromDisk

/-- `auth/settings.py` `get_auth_settings`: just `load_auth_settings`. -/
def get_auth_settings (cache : Option AuthSettings) (fromDisk : AuthSettings) :
    AuthSettings :=
  load_auth_settings cache fromDisk

/-! ## Password policy (`auth/password.py` `validate_password`) -/

/-- Whether `needle` occurs as a contiguous run inside `hay`. -/
def listInfixOf [BEq α] (needle : List α) : List α → Bool
  | [] => needle.isEmpty
  | c :: cs => needle.isPrefixOf (c :: cs) || listInfixOf needle cs

/-- ASCII-lowercased code point of a character (Python `str.lower` on the
ASCII range relevant to usernames and the deny-list). -/
def lowerCode (c : Char) : Nat :=
  if c.isUpper then c.toNat + 32 else c.toNat

/-- The lowercased code points of a string. -/
def lowerCodes (s : String) : List Nat :=
  s.data.map lowerCode

/-- Case-insensitive substring test: `needle.lower() in hay.lower()`. -/
def strContainsCI (hay needle : String) : Bool :=
  listInfixOf (lowerCodes needle) (lowerCodes hay)

/-- Modelled from the spec: the maintained common-password deny-list of
§4.2 (`auth/password.py` is not among the staged sources); the unit tests
require at least the stems of `Password123!`, `Qwerty123!`, `Admin123!`,
`Welcome123!` and `Letmein123!` to be matched case-insensitively. -/
def commonPasswords : List String :=
  ["password", "123456", "12345678", "qwerty", "abc123", "monkey",
   "letmein", "dragon", "111111", "baseball", "iloveyou", "trustno1",
   "sunshine", "master", "welcome", "shadow", "football", "admin"]

/-- Whether the password has an uppercase letter. -/
def hasUpper (s : String) : Bool := s.data.any Char.isUpper

/-- Whether the password has a lowercase letter. -/
def hasLower (s : String) : Bool := s.data.any Char.isLower

/-- Whether the password has a digit. -/
def hasDigit (s : String) : Bool := s.data.any Char.isDigit

/-- Whether the password has a special (non-alphanumeric) character. -/
def hasSpecial (s : String) : Bool := s.data.any (fun c => !c.isAlphanum)

/-- The length rule's message (the tests require it to cite "8 characters"
for the default minimum). -/
def lengthError (n : Nat) : String :=
  "Password must be at least " ++ toString n ++ " characters long"

/-- Modelled from the spec: §4.2's same-as-username rule — the password must
not equal or contain the supplied username, case-insensitively
(`auth/password.py` is not among the staged sources). -/
def usernameConflict (password : String) : Option String → Bool
  | none => false
  | some u => !u.data.isEmpty && strContainsCI password u

/-- Modelled from the spec: `auth.password.validate_password` (§4.2;
`auth/password.py` is not among the staged sources).  The rules run in
order — length ≥ configured minimum, uppercase, lowercase, digit, optional
special character, common-password deny-list (case-insensitive substring),
not equal to / containing the username (case-insensitive) — and the first
failing rule's message is the single surfaced error. -/
def validate_password (settings : LocalAuthSettings) (password : String)
    (username : Option String := none) : PasswordValidationResult :=
  if password.length < settings.min_password_length then
    ⟨false, some (lengthError settings.min_password_length)⟩
  else if settings.require_uppercase && !hasUpper password then
    ⟨false, some "Password must contain at least one uppercase letter"⟩
  else if settings.require_lowercase && !hasLower password then
    ⟨false, some "Password must contain at least one lowercase letter"⟩
  else if settings.require_number && !hasDigit password then
    ⟨false, some "Password must contain at least one number"⟩
  else if settings.require_special && !hasSpecial password then
    ⟨false, some "Password must contain at least one special character"⟩
  else if commonPasswords.any (fun w => strContainsCI password w) then
    ⟨false, some "Password is too common, please choose a stronger one"⟩
  else if usernameConflict password username then
    ⟨false, some "Password cannot contain your username"⟩
  else
    ⟨true, none⟩

/-- The ordered list of messages of the rules the password fails, used to
state that `validate_password` surfaces exactly the first failure. -/
def ruleFailures (settings : LocalAuthSettings) (password : String)
    (username : Option String) : List String :=
  (if password.length < settings.min_password_length then
    [lengthError settings.min_password_length] else [])
  ++ (if settings.require_uppercase && !hasUpper password then
    ["Password must contain at least one uppercase letter"] else [])
  ++ (if settings.require_lowercase && !hasLower password then
    ["Password must contain at least one lowercase letter"] else [])
  ++ (if settings.require_number && !hasDigit password then
    ["Password must contain at least one number"] else [])
  ++ (if settings.require_special && !hasSpecial password then
    ["Password must contain at least one special character"] else [])
  ++ (if commonPasswords.any (fun w => strContainsCI password w) then
    ["Password is too common, please choose a stronger one"] else [])
  ++ (if usernameConflict password username then
    ["Password cannot contain your username"] else [])

/-! ## Token service (`auth/tokens.py`) -/

/-- A simple rolling hash standing for the content dependency of the
HMAC signature on the secret and the serialized claims. -/
def strHash (s : String) : Nat :=
  s.foldl (fun h c => h * 31 + c.toNat) 7

/-- Hash of an optional claim value. -/
def optHash : Option String → Nat
  | none => 0
  | some s => strHash s + 1

/-- Content hash of a claims payload. -/
def payloadHash (p : TokenClaims) : Nat :=
  ((((match p.sub with | none => 0 | some n => n + 1) * 31
      + optHash p.username) * 31 + optHash p.typ) * 31 + p.iat) * 31 + p.exp

/-- Modelled from the spec: the symmetric signature over the payload (§4.3,
§6: three-segment signed token, HMAC-SHA256-equivalent; `auth/tokens.py` is
not among the staged sources). -/
def signPayload (secret : String) (p : TokenClaims) : Nat :=
  strHash secret * 1000003 + payloadHash p

/-- Modelled from the spec: a signed bearer token — a claims payload together
with its signature segment (`auth/tokens.py` is not among the staged
sources). -/
structure SignedToken where
  payload : TokenClaims
  signature : Nat
deriving Repr, DecidableEq

/-- Modelled from the spec: `auth.tokens.create_access_token` — claims
`sub` = user id, `username`, `iat`, `exp` = `iat` plus the configured
access-token lifetime in minutes (`auth/tokens.py` is not among the staged
sources). -/
def create_access_token (secret : String) (now : Nat) (jwt : JWTSettings)
    (user_id : Nat) (username : String) : SignedToken :=
  let claims : TokenClaims :=
    { sub := some user_id, username := some username, typ := none,
      iat := now, exp := now + jwt.access_token_expire_minutes * 60 }
  { payload := claims, signature := signPayload secret claims }

/-- Modelled from the spec: `auth.tokens.create_refresh_token` — claims
`sub` = user id, `type = "refresh"`, `iat`, `exp` = `iat` plus the configured
refresh-token lifetime in days (`auth/tokens.py` is not among the staged
sources). -/
def create_refresh_token (secret : String) (now : Nat) (jwt : JWTSettings)
    (user_id : Nat) : SignedToken :=
  let claims : TokenClaims :=
    { sub := some user_id, username := none, typ := some "refresh",
      iat := now, exp := now + jwt.refresh_token_expire_days * 86400 }
  { payload := claims, signature := signPayload secret claims }

/-- Modelled from the spec: `auth.tokens.decode_token` — fails with
`InvalidTokenError` on a signature mismatch and with `TokenExpiredError`
once `exp` has passed, and returns the claims otherwise (`auth/tokens.py`
is not among the staged sources). -/
def decode_token (secret : String) (now : Nat) (t : SignedToken) : DecodeResult :=
  if t.signature != signPayload secret t.payload then
    .invalid "Signature verification failed"
  else if t.payload.exp ≤ now then
    .expired
  else
    .ok t.payload

/-! ## Helper lemmas about the list-level database operations -/

theorem find?_updateFirst_none (p : α → Bool) (f : α → α) (l : List α)
    (hf : ∀ x, p (f x) = false) (hc : l.countP p ≤ 1) :
    (updateFirst p f l).find? p = none := by
  induction l with
  | nil => rfl
  | cons x xs ih =>
    by_cases hx : p x = true
    · have hxs : xs.countP p = 0 := by
        have := List.countP_cons_of_pos p xs hx
        omega
      have hnone : xs.find? p = none :=
        List.find?_eq_none.mpr (List.countP_eq_zero.mp hxs)
      simp [updateFirst, hx, List.find?, hf x, hnone]
    · have hx' : p x = false := by simpa using hx
      have hc' : xs.countP p ≤ 1 := by
        have h2 : (x :: xs).countP p = xs.countP p :=
          List.countP_cons_of_neg p xs (by simp [hx'])
        omega
      simp [updateFirst, hx', List.find?, ih hc']

theorem find?_filter_eq (p q : α → Bool) (l : List α) :
    (l.filter p).find? q = l.find? (fun x => p x && q x) := by
  induction l with
  | nil => rfl
  | cons x xs ih =>
    by_cases hp : p x = true
    · by_cases hq : q x = true
      · simp [List.filter_cons, hp, List.find?, hq]
      · have hq' : q x = false := by simpa using hq
        simp [List.filter_cons, hp, List.find?, hq', ih]
    · have hp' : p x = false := by simpa using hp
      simp [List.filter_cons, hp', List.find?, ih]

theorem updateFirst_of_find? (p : α → Bool) (f : α → α) (l : List α) (a : α)
    (h : l.find? p = some a) :
    ∃ l₁ l₂, l = l₁ ++ a :: l₂ ∧ updateFirst p f l = l₁ ++ f a :: l₂ := by
  induction l with
  | nil => simp [List.find?] at h
  | cons x xs ih =>
    by_cases hx : p x = true
    · rw [List.find?_cons_of_pos _ hx] at h
      refine ⟨[], xs, ?_, ?_⟩ <;> simp_all [updateFirst]
    · have hx' : p x = false := by simpa using hx
      rw [List.find?_cons_of_neg _ (by simp [hx'])] at h
      obtain ⟨l₁, l₂, hl, hu⟩ := ih h
      exact ⟨x :: l₁, l₂, by simp [hl], by simp [updateFirst, hx', hu]⟩

theorem countP_removeFirst (p q : α → Bool) (l : List α) :
    l.countP q ≤ (removeFirst p l).countP q + 1 := by
  induction l with
  | nil => simp [removeFirst]
  | cons x xs ih =>
    by_cases hx : p x = true
    · simp only [removeFirst, hx, if_pos]
      by_cases hq : q x = true
      · rw [List.countP_cons_of_pos q xs hq]
      · rw [List.countP_cons_of_neg q xs (by simp_all)]
        omega
    · have hx' : p x = false := by simpa using hx
      simp only [removeFirst, hx', Bool.false_eq_true, if_false]
      by_cases hq : q x = true
      · rw [List.countP_cons_of_pos q xs hq,
          List.countP_cons_of_pos q (removeFirst p xs) hq]
        omega
      · rw [List.countP_cons_of_neg q xs (by simp_all),
          List.countP_cons_of_neg q (removeFirst p xs) (by simp_all)]
        exact ih

theorem countP_conj_split (p q : α → Bool) (l : List α) :
    l.countP p =
      l.countP (fun x => p x && q x) + l.countP (fun x => p x && !q x) := by
  induction l with
  | nil => simp
  | cons x xs ih =>
    by_cases hp : p x = true
    · by_cases hq : q x = true
      · rw [List.countP_cons_of_pos p xs hp,
          List.countP_cons_of_pos _ xs (by simp [hp, hq]),
          List.countP_cons_of_neg (fun x => p x && !q x) xs (by simp [hq])]
        omega
      · have hq' : q x = false := by simpa using hq
        rw [List.countP_cons_of_pos p xs hp,
          List.countP_cons_of_neg (fun x => p x && q x) xs (by simp [hq']),
          List.countP_cons_of_pos (fun x => p x && !q x) xs (by simp [hp, hq'])]
        omega
    · have hp' : p x = false := by simpa using hp
      rw [List.countP_cons_of_neg p xs (by simp [hp']),
        List.countP_cons_of_neg (fun x => p x && q x) xs (by simp [hp']),
        List.countP_cons_of_neg (fun x => p x && !q x) xs (by simp [hp'])]
      exact ih

theorem countP_eq_key_le_one [DecidableEq β] (f : α → β) (l : List α) (c : β)
    (h : (l.map f).Nodup) : l.countP (fun x => f x == c) ≤ 1 := by
  induction l with
  | nil => simp
  | cons x xs ih =>
    rw [List.map_cons, List.nodup_cons] at h
    by_cases hx : f x = c
    · have hz : xs.countP (fun y => f y == c) = 0 := by
        refine List.countP_eq_zero.mpr (fun a ha hc => ?_)
        exact h.1 (by
          subst hx
          rw [← eq_of_beq hc]
          exact List.mem_map_of_mem f ha)
      rw [List.countP_cons_of_pos _ xs (by simp [hx]), hz]
    · rw [List.countP_cons_of_neg _ xs (by simp [hx])]
      exact ih h.2

/-! ## C3: anti-enumeration of local login failures -/

/-- C3: a local login for a username with no matching user and a local login
for an existing (password-eligible) user with a wrong password both fail with
the same generic 401 "Invalid username or password" error and leave the
database unchanged, so an observer cannot distinguish the two runs. -/
theorem login_anti_enumeration
    (verify : String → String → Bool) (hashToken : String → String)
    (rt1 rt2 : String) (n1 n2 sid1 sid2 : Nat) (st1 st2 : AuthSettings)
    (db1 db2 : DB) (u1 p1 u2 p2 : String) (user : UserRow)
    (hNoUser : findLoginUser db1 u1 = none)
    (hUser : findLoginUser db2 u2 = some user)
    (hGate : (hasLocalIdentity db2 user.id || user.auth_provider == "local") = true)
    (hPw : (pwHashMissing user.password_hash
        || !(verify p2 (user.password_hash.getD ""))) = true) :
    login verify hashToken rt1 n1 st1 sid1 db1 u1 p1
      = (.httpError 401 "Invalid username or password", db1)
    ∧ login verify hashToken rt2 n2 st2 sid2 db2 u2 p2
      = (.httpError 401 "Invalid username or password", db2)
    ∧ (login verify hashToken rt1 n1 st1 sid1 db1 u1 p1).1
      = (login verify hashToken rt2 n2 st2 sid2 db2 u2 p2).1 := by
  have hgate2 : (!hasLocalIdentity db2 user.id && (user.auth_provider != "local"))
      = false := by
    rcases (Bool.or_eq_true _ _).mp hGate with h | h
    · simp [h]
    · simp [eq_of_beq h]
  have h1 : login verify hashToken rt1 n1 st1 sid1 db1 u1 p1
      = (.httpError 401 "Invalid username or password", db1) := by
    simp [login, hNoUser]
  have h2 : login verify hashToken rt2 n2 st2 sid2 db2 u2 p2
      = (.httpError 401 "Invalid username or password", db2) := by
    simp [login, hUser, hgate2, hPw]
  exact ⟨h1, h2, by rw [h1, h2]⟩

/-- Database of the C3 witness: one active local user "alice". -/
def loginWitnessDB : DB :=
  { users := [{ id := 1, username := "alice", password_hash := some "H" }],
    identities := [{ id := 1, user_id := 1, provider := "local", identifier := "alice" }] }

/-- Witness for C3: with a verifier that rejects the password, the run for
unknown "bob" and the run for existing "alice" return the same error. -/
theorem login_anti_enumeration_witness :
    login (fun _ _ => false) id "r1" 0 {} 7 {} "bob" "pw"
      = (.httpError 401 "Invalid username or password", {})
    ∧ login (fun _ _ => false) id "r2" 0 {} 8 loginWitnessDB "alice" "pw"
      = (.httpError 401 "Invalid username or password", loginWitnessDB)
    ∧ (login (fun _ _ => false) id "r1" 0 {} 7 {} "bob" "pw").1
      = (login (fun _ _ => false) id "r2" 0 {} 8 loginWitnessDB "alice" "pw").1 :=
  login_anti_enumeration (fun _ _ => false) id "r1" "r2" 0 0 7 8 {} {} {} loginWitnessDB
    "bob" "pw" "alice" "pw" { id := 1, username := "alice", password_hash := some "H" }
    rfl rfl (by decide) (by decide)

/-! ## C5: refresh rejects tokens whose claims are not of type "refresh" -/

/-- C5: a token that decodes successfully but whose claims do not carry
`type == "refresh"` (an access token, in particular) is rejected by the
refresh route with the invalid-token-type failure, and no tokens are issued
and the database is unchanged. -/
theorem refresh_rejects_wrong_token_type
    (decode : String → DecodeResult) (hashToken : String → String)
    (a nr tokStr : String) (now : Nat) (st : AuthSettings) (db : DB)
    (c : TokenClaims)
    (hDec : decode tokStr = .ok c) (hTyp : c.typ ≠ some "refresh") :
    refresh_tokens decode hashToken a nr now st db (some tokStr)
      = (.authError "Invalid token type", db) := by
  have ht : (c.typ != some "refresh") = true := by simpa [bne_iff_ne] using hTyp
  simp [refresh_tokens, hDec, ht]

/-- Witness for C5: claims with no `type` field (an access token) are
rejected by the refresh route. -/
theorem refresh_rejects_wrong_token_type_witness :
    refresh_tokens (fun _ => .ok {}) id "a" "nr" 0 {} {} (some "tok")
      = (.authError "Invalid token type", {}) :=
  refresh_rejects_wrong_token_type (fun _ => .ok {}) id "a" "nr" "tok" 0 {} {} {}
    rfl (by decide)

/-! ## C9: refresh rejects a valid session whose user is gone or disabled -/

/-- C9: even when the refresh token decodes as a refresh token and matches a
non-revoked, non-expired session row, the refresh fails with the
"User not found or disabled" authentication error — issuing no tokens and
leaving the database (so the session row's hash, `last_used_at` and
`expires_at`) unchanged — whenever no user has the token's `sub` id or that
user has `is_active = false`. -/
theorem refresh_rejects_missing_or_disabled_user
    (decode : String → DecodeResult) (hashToken : String → String)
    (a nr r : String) (now : Nat) (st : AuthSettings) (db : DB)
    (c : TokenClaims) (uid : Nat) (srow : SessionRow)
    (hDec : decode r = .ok c) (hTyp : c.typ = some "refresh")
    (hSub : c.sub = some uid)
    (hFind : db.sessions.find?
        (fun s => s.refresh_token_hash == hashToken r && !s.is_revoked) = some srow)
    (hNotExp : ¬ srow.expires_at < now)
    (hUser : db.users.find? (fun u => u.id == uid) = none
      ∨ ∃ u, db.users.find? (fun u2 => u2.id == uid) = some u
          ∧ u.is_active = false) :
    refresh_tokens decode hashToken a nr now st db (some r)
      = (.authError "User not found or disabled", db) := by
  rcases hUser with h | ⟨u, hu, hact⟩
  · simp [refresh_tokens, hDec, hTyp, hSub, hFind, hNotExp, h]
  · simp [refresh_tokens, hDec, hTyp, hSub, hFind, hNotExp, hu, hact]

/-- Database of the C9 witness: one live session row, no user rows at all. -/
def c9DB : DB :=
  { sessions := [{ id := 1, user_id := 1, refresh_token_hash := "RT", expires_at := 100 }] }

/-- Witness for C9: a valid session whose user row is missing is refused. -/
theorem refresh_rejects_missing_or_disabled_user_witness :
    refresh_tokens (fun _ => .ok { sub := some 1, typ := some "refresh" }) id
        "a" "nr" 5 {} c9DB (some "RT")
      = (.authError "User not found or disabled", c9DB) :=
  refresh_rejects_missing_or_disabled_user
    (fun _ => .ok { sub := some 1, typ := some "refresh" }) id "a" "nr" "RT" 5 {} c9DB
    { sub := some 1, typ := some "refresh" } 1
    { id := 1, user_id := 1, refresh_token_hash := "RT", expires_at := 100 }
    rfl rfl rfl (by decide) (by decide) (Or.inl rfl)

/-! ## C10: save_auth_settings caches the value before returning -/

/-- C10: whenever `save_auth_settings` returns (rather than re-raising an
unexpected exception), the in-memory cache holds exactly the settings it was
given — also when the config directory cannot be created or the write fails
with a permission/OS error, in which case it returns `False` — so a
subsequent `get_auth_settings` yields those settings even though nothing was
persisted. -/
theorem save_auth_settings_caches_on_return
    (env : FsEnv) (cache : Option AuthSettings) (s fromDisk : AuthSettings)
    (h : (save_auth_settings env cache s).1 ≠ .raised) :
    (save_auth_settings env cache s).2 = some s
    ∧ get_auth_settings (save_auth_settings env cache s).2 fromDisk = s
    ∧ ((save_auth_settings env cache s).1 = .returned true
        ↔ env.mkdirOk = true ∧ env.write = .success) := by
  cases hm : env.mkdirOk
  · simp [save_auth_settings, hm, get_auth_settings, load_auth_settings]
  · cases hw : env.write
    case success =>
      simp [save_auth_settings, hm, hw, get_auth_settings, load_auth_settings]
    case osError =>
      simp [save_auth_settings, hm, hw, get_auth_settings, load_auth_settings]
    case otherError =>
      exact absurd (by simp [save_auth_settings, hm, hw]) h

/-- Witness for C10: a save that cannot create the config directory still
caches the given settings and reports failure. -/
theorem save_auth_settings_caches_on_return_witness :
    (save_auth_settings ⟨false, .success⟩ none {}).2 = some {}
    ∧ get_auth_settings (save_auth_settings ⟨false, .success⟩ none {}).2 {} = {}
    ∧ ((save_auth_settings ⟨false, .success⟩ none {}).1 = .returned true
        ↔ (⟨false, .success⟩ : FsEnv).mkdirOk = true
          ∧ (⟨false, .success⟩ : FsEnv).write = .success) :=
  save_auth_settings_caches_on_return ⟨false, .success⟩ none {} {} (by decide)

/-! ## C6: forgot-password anti-enumeration and conditional token creation -/

/-- C6: `forgot_password` always answers with the fixed success message; no
reset-token row is created unless an active, local-provider user with the
supplied email exists; and (given that emails are unique across users, the
model's invariant) when such a user exists, exactly one row for that user
with `expires_at` = issuance time + 1 hour is appended. -/
theorem forgot_password_always_succeeds (hp : String → String) (raw : String)
    (now nid : Nat) (db : DB) (email : String) :
    (forgot_password hp raw now nid db email).1 = forgotPasswordMessage
    ∧ ((¬ ∃ u ∈ db.users, u.email = some email ∧ u.is_active = true
          ∧ u.auth_provider = "local") →
        (forgot_password hp raw now nid db email).2 = db)
    ∧ ((∀ u₁ ∈ db.users, ∀ u₂ ∈ db.users,
          u₁.email = some email → u₂.email = some email → u₁ = u₂) →
       ∀ u ∈ db.users, u.email = some email → u.is_active = true →
          u.auth_provider = "local" →
        (forgot_password hp raw now nid db email).2
          = { db with resetTokens := db.resetTokens ++
              [{ id := nid, user_id := u.id, token_hash := hp raw,
                 expires_at := now + 3600, used_at := none }] }) := by
  refine ⟨?_, ?_, ?_⟩
  · cases hf : db.users.find? (fun u => u.email == some email) with
    | none => simp [forgot_password, hf]
    | some user =>
      by_cases hc : (user.is_active && user.auth_provider == "local") = true <;>
        simp [forgot_password, hf, hc]
  · intro hno
    cases hf : db.users.find? (fun u => u.email == some email) with
    | none => simp [forgot_password, hf]
    | some user =>
      have hmem := List.mem_of_find?_eq_some hf
      have hpe := List.find?_some hf
      simp only [beq_iff_eq] at hpe
      by_cases hc : (user.is_active && user.auth_provider == "local") = true
      · exact absurd
          ⟨user, hmem, hpe, (Bool.and_eq_true _ _).mp hc |>.1,
            eq_of_beq ((Bool.and_eq_true _ _).mp hc).2⟩ hno
      · simp [forgot_password, hf, hc]
  · intro huniq u hu hue hact hprov
    have hsome : (db.users.find? (fun x => x.email == some email)).isSome :=
      List.find?_isSome.mpr ⟨u, hu, by simp [hue]⟩
    obtain ⟨v, hv⟩ := Option.isSome_iff_exists.mp hsome
    have hvmem := List.mem_of_find?_eq_some hv
    have hve := List.find?_some hv
    simp only [beq_iff_eq] at hve
    have hvu : v = u := huniq v hvmem u hu hve hue
    subst hvu
    simp [forgot_password, hv, hact, hprov]

/-! ## C4: a user's last identity can never be unlinked -/

/-- C4: when a user has exactly one identity row, both the unlink route and
the `remove_user_identity` helper fail without deleting anything; and both
operations preserve "a user with at least one identity keeps at least one"
(for the helper, under the primary-key uniqueness of identity ids). -/
theorem unlink_never_removes_last_identity (db : DB) (iid uid : Nat) :
    ((db.identities.filter (fun i => i.user_id == uid)).length = 1 →
      (unlink_identity db iid uid).2 = db
      ∧ (unlink_identity db iid uid).1 ≠ .ok
      ∧ remove_user_identity db iid uid = (false, db))
    ∧ (1 ≤ (db.identities.filter (fun i => i.user_id == uid)).length →
        1 ≤ (((unlink_identity db iid uid).2).identities.filter
              (fun i => i.user_id == uid)).length)
    ∧ ((db.identities.map (fun i => i.id)).Nodup →
       1 ≤ (db.identities.filter (fun i => i.user_id == uid)).length →
        1 ≤ (((remove_user_identity db iid uid).2).identities.filter
              (fun i => i.user_id == uid)).length) := by
  refine ⟨?_, ?_, ?_⟩
  · intro h1
    have hrm : remove_user_identity db iid uid = (false, db) := by
      simp [remove_user_identity, h1]
    cases hf : db.identities.find? (fun i => i.id == iid && i.user_id == uid) with
    | none =>
      refine ⟨by simp [unlink_identity, hf], by simp [unlink_identity, hf], hrm⟩
    | some i =>
      refine ⟨by simp [unlink_identity, hf, h1], by simp [unlink_identity, hf, h1], hrm⟩
  · intro hge
    cases hf : db.identities.find? (fun i => i.id == iid && i.user_id == uid) with
    | none => simpa [unlink_identity, hf] using hge
    | some i =>
      by_cases hcnt : (db.identities.filter (fun j => j.user_id == uid)).length ≤ 1
      · simpa [unlink_identity, hf, hcnt] using hge
      · have hkey := countP_removeFirst (fun j => j.id == iid)
          (fun j => j.user_id == uid) db.identities
        rw [List.countP_eq_length_filter, List.countP_eq_length_filter] at hkey
        have hlt := not_le.mp hcnt
        simp only [unlink_identity, hf, hcnt, if_false]
        omega
  · intro hnd hge
    by_cases hcnt : (db.identities.filter (fun j => j.user_id == uid)).length ≤ 1
    · simpa [remove_user_identity, hcnt] using hge
    · have hlt := not_le.mp hcnt
      have hsplit := countP_conj_split (fun j => j.user_id == uid)
        (fun j => j.id == iid && j.user_id == uid) db.identities
      have hmono : db.identities.countP
          (fun j => (j.user_id == uid) && (j.id == iid && j.user_id == uid))
          ≤ db.identities.countP (fun j => j.id == iid) :=
        List.countP_mono_left (fun a _ ha => by
          rcases (Bool.and_eq_true _ _).mp ha with ⟨_, hb⟩
          exact ((Bool.and_eq_true _ _).mp hb).1)
      have hone : db.identities.countP (fun j => j.id == iid) ≤ 1 :=
        countP_eq_key_le_one (fun i => i.id) db.identities iid hnd
      have hcc : (db.identities.filter (fun j => j.user_id == uid)).length
          = db.identities.countP (fun j => j.user_id == uid) :=
        (List.countP_eq_length_filter _ _).symm
      have hfilters : ((db.identities.filter
            (fun j => !(j.id == iid && j.user_id == uid))).filter
            (fun j => j.user_id == uid)).length
          = db.identities.countP
            (fun j => (j.user_id == uid) && !(j.id == iid && j.user_id == uid)) := by
        rw [← List.countP_eq_length_filter]
        exact List.countP_filter _ _ _
      simp only [remove_user_identity, hcnt, if_false]
      rw [hfilters]
      omega

/-! ## C7: validate_password surfaces exactly the first failing rule -/

/-- `validate_password` agrees with the ordered failure list: it answers with
the head of the list when any rule fails, and valid otherwise. -/
theorem validate_password_eq_failures (s : LocalAuthSettings) (p : String)
    (u : Option String) :
    validate_password s p u = match ruleFailures s p u with
      | [] => ⟨true, none⟩
      | e :: _ => ⟨false, some e⟩ := by
  unfold validate_password ruleFailures
  by_cases h1 : p.length < s.min_password_length <;>
  by_cases h2 : (s.require_uppercase && !hasUpper p) = true <;>
  by_cases h3 : (s.require_lowercase && !hasLower p) = true <;>
  by_cases h4 : (s.require_number && !hasDigit p) = true <;>
  by_cases h5 : (s.require_special && !hasSpecial p) = true <;>
  by_cases h6 : (commonPasswords.any fun w => strContainsCI p w) = true <;>
  by_cases h7 : usernameConflict p u = true <;>
  simp [h1, h2, h3, h4, h5, h6, h7]

/-- C7: `validate_password` is valid exactly when every enabled rule passes
(the failure list is empty), its single error is the first failing rule's
message, `"Short1!"` is rejected citing the 8-character minimum, and
`"ValidPass123!"` is accepted. -/
theorem validate_password_first_failure_spec :
    (∀ s p u, ((validate_password s p u).valid = true ↔ ruleFailures s p u = [])
      ∧ (validate_password s p u).error = (ruleFailures s p u).head?)
    ∧ validate_password {} "Short1!" none
        = ⟨false, some "Password must be at least 8 characters long"⟩
    ∧ validate_password {} "ValidPass123!" none = ⟨true, none⟩ := by
  refine ⟨fun s p u => ?_, by decide, by decide⟩
  rw [validate_password_eq_failures]
  cases ruleFailures s p u <;> simp

/-! ## C8: access-token round trip -/

/-- C8: decoding the token produced by `create_access_token` yields claims
with `sub` the user id, `username` the username, and `exp - iat` exactly the
configured access-token lifetime (whose default, from `JWTSettings`, is
30 minutes = 1800 seconds). -/
theorem access_token_round_trip (secret name : String) (uid now : Nat)
    (jwt : JWTSettings) (h : 0 < jwt.access_token_expire_minutes) :
    decode_token secret now (create_access_token secret now jwt uid name)
      = .ok { sub := some uid, username := some name, typ := none,
              iat := now, exp := now + jwt.access_token_expire_minutes * 60 }
    ∧ (∀ c, decode_token secret now (create_access_token secret now jwt uid name)
          = .ok c →
        c.sub = some uid ∧ c.username = some name
          ∧ c.exp - c.iat = jwt.access_token_expire_minutes * 60)
    ∧ ({} : JWTSettings).access_token_expire_minutes * 60 = 1800 := by
  have hexp : ¬ (now + jwt.access_token_expire_minutes * 60 ≤ now) := by omega
  have h1 : decode_token secret now (create_access_token secret now jwt uid name)
      = .ok { sub := some uid, username := some name, typ := none,
              iat := now, exp := now + jwt.access_token_expire_minutes * 60 } := by
    simp [decode_token, create_access_token, hexp]
  refine ⟨h1, ?_, by decide⟩
  intro c hc
  rw [h1] at hc
  cases hc
  refine ⟨rfl, rfl, ?_⟩
  dsimp only
  omega

/-- Witness for C8 with the default settings at a concrete user. -/
theorem access_token_round_trip_witness :
    decode_token "k" 0 (create_access_token "k" 0 {} 1 "alice")
      = .ok { sub := some 1, username := some "alice", typ := none,
              iat := 0, exp := 0 + ({} : JWTSettings).access_token_expire_minutes * 60 }
    ∧ (∀ c, decode_token "k" 0 (create_access_token "k" 0 {} 1 "alice") = .ok c →
        c.sub = some 1 ∧ c.username = some "alice"
          ∧ c.exp - c.iat = ({} : JWTSettings).access_token_expire_minutes * 60)
    ∧ ({} : JWTSettings).access_token_expire_minutes * 60 = 1800 :=
  access_token_round_trip "k" "alice" 1 0 {} (by decide)

/-! ## C1: a rotated-away refresh token is never accepted again -/

/-- C1: when a refresh with raw token `r` succeeds (rotating the stored hash
to the hash of the newly issued token, which differs from `r`), a later
refresh presenting the same raw token `r` — here with any decode outcome that
still yields refresh-type claims — fails with the replay/revocation error
"Session not found or revoked" and issues no tokens, leaving the database
unchanged: `hash r` no longer matches any stored non-revoked session row. -/
theorem rotated_refresh_token_replay_rejected
    (decode1 decode2 : String → DecodeResult) (hashToken : String → String)
    (a1 nr1 a2 nr2 r : String) (now1 now2 : Nat) (st1 st2 : AuthSettings)
    (db : DB) (c1 c2 : TokenClaims) (uid1 : Nat) (srow : SessionRow) (user : UserRow)
    (hInj : Function.Injective hashToken)
    (hNe : nr1 ≠ r)
    (hOnce : db.sessions.countP
        (fun s => s.refresh_token_hash == hashToken r && !s.is_revoked) ≤ 1)
    (hDec1 : decode1 r = .ok c1) (hTyp1 : c1.typ = some "refresh")
    (hSub1 : c1.sub = some uid1)
    (hFind : db.sessions.find?
        (fun s => s.refresh_token_hash == hashToken r && !s.is_revoked) = some srow)
    (hNotExp : ¬ srow.expires_at < now1)
    (hUser : db.users.find? (fun u => u.id == uid1) = some user)
    (hActive : user.is_active = true)
    (hDec2 : decode2 r = .ok c2) (hTyp2 : c2.typ = some "refresh")
    (hSub2 : c2.sub.isSome = true) :
    (refresh_tokens decode1 hashToken a1 nr1 now1 st1 db (some r)).1
      = .refreshed a1 nr1
    ∧ refresh_tokens decode2 hashToken a2 nr2 now2 st2
        (refresh_tokens decode1 hashToken a1 nr1 now1 st1 db (some r)).2 (some r)
      = (.authError "Session not found or revoked",
         (refresh_tokens decode1 hashToken a1 nr1 now1 st1 db (some r)).2) := by
  have h1 : refresh_tokens decode1 hashToken a1 nr1 now1 st1 db (some r)
      = (.refreshed a1 nr1,
         { db with sessions := (updateFirst
             (fun s => s.refresh_token_hash == hashToken r && !s.is_revoked)
             (fun s => { s with
                         refresh_token_hash := hashToken nr1,
                         last_used_at := some now1,
                         expires_at := now1 + st1.jwt.refresh_token_expire_days * 86400 })
             db.sessions) }) := by
    simp [refresh_tokens, hDec1, hTyp1, hSub1, hFind, hNotExp, hUser, hActive]
  have hhne : (hashToken nr1 == hashToken r) = false :=
    beq_eq_false_iff_ne.mpr (fun hcol => hNe (hInj hcol))
  have hnone : (updateFirst
      (fun s => s.refresh_token_hash == hashToken r && !s.is_revoked)
      (fun s => { s with
                  refresh_token_hash := hashToken nr1,
                  last_used_at := some now1,
                  expires_at := now1 + st1.jwt.refresh_token_expire_days * 86400 })
      db.sessions).find?
      (fun s => s.refresh_token_hash == hashToken r && !s.is_revoked) = none := by
    refine find?_updateFirst_none _ _ _ (fun x => ?_) hOnce
    simp [hhne]
  obtain ⟨uid2, hsub2⟩ := Option.isSome_iff_exists.mp hSub2
  refine ⟨by rw [h1], ?_⟩
  rw [h1]
  simp [refresh_tokens, hDec2, hTyp2, hsub2, hnone]

/-- Decoder of the C1 witness: every string carries refresh claims for
user 1. -/
def c1Decode : String → DecodeResult :=
  fun _ => .ok { sub := some 1, typ := some "refresh", exp := 200 }

/-- Database of the C1 witness: user 1 with one live session whose stored
hash is that of the raw token "RT" (the hash function being `id`). -/
def c1DB : DB :=
  { users := [{ id := 1, username := "alice" }],
    sessions := [{ id := 1, user_id := 1, refresh_token_hash := "RT", expires_at := 100 }] }

/-- Witness for C1: rotating "RT" to "RT2" succeeds once, and replaying "RT"
is rejected with the replay error against the rotated database. -/
theorem rotated_refresh_token_replay_rejected_witness :
    (refresh_tokens c1Decode id "A1" "RT2" 5 {} c1DB (some "RT")).1
      = .refreshed "A1" "RT2"
    ∧ refresh_tokens c1Decode id "A2" "RT3" 6 {}
        (refresh_tokens c1Decode id "A1" "RT2" 5 {} c1DB (some "RT")).2 (some "RT")
      = (.authError "Session not found or revoked",
         (refresh_tokens c1Decode id "A1" "RT2" 5 {} c1DB (some "RT")).2) :=
  rotated_refresh_token_replay_rejected c1Decode c1Decode id "A1" "RT2" "A2" "RT3" "RT"
    5 6 {} {} c1DB { sub := some 1, typ := some "refresh", exp := 200 }
    { sub := some 1, typ := some "refresh", exp := 200 } 1
    { id := 1, user_id := 1, refresh_token_hash := "RT", expires_at := 100 }
    { id := 1, username := "alice" }
    (fun _ _ h => h) (by decide) (by decide) rfl rfl rfl (by decide) (by decide)
    (by decide) rfl rfl rfl rfl

/-! ## C2: a password-reset token is redeemed at most once -/

/-- C2: provided at most one unused stored hash verifies against the raw
token (bcrypt collision-freeness), (a) when every record the raw token
verifies against is already used or expired, `reset_password` fails without
touching the database — a token with non-null `used_at` or a past
`expires_at` never authorizes a password change — and (b) after one
successful redemption, which sets `used_at` in the same commit as the
password update, a second redemption of the same raw token fails with the
invalid-token error and leaves the database (hence the user's password hash)
unchanged. -/
theorem reset_token_single_use
    (verify : String → String → Bool)
    (validate : String → Option String → PasswordValidationResult)
    (newHash1 newHash2 : String) (now1 now2 : Nat)
    (db db1 : DB) (rawToken p1 p2 : String)
    (hUniq : db.resetTokens.countP
        (fun t => t.used_at.isNone && verify rawToken t.token_hash) ≤ 1) :
    ((∀ t ∈ db.resetTokens, verify rawToken t.token_hash = true →
        t.used_at.isSome = true ∨ t.expires_at < now1) →
      (reset_password verify validate newHash1 now1 db rawToken p1).2 = db
      ∧ (reset_password verify validate newHash1 now1 db rawToken p1).1 ≠ .ok)
    ∧ (reset_password verify validate newHash1 now1 db rawToken p1 = (.ok, db1) →
      reset_password verify validate newHash2 now2 db1 rawToken p2
        = (.httpError 400 "Invalid or expired reset token", db1)) := by
  constructor
  · intro hA
    cases hf : (db.resetTokens.filter (fun t => t.used_at.isNone)).find?
        (fun t => verify rawToken t.token_hash) with
    | none => simp [reset_password, hf]
    | some vt =>
      have hvt := List.find?_some hf
      have hmem := List.mem_of_find?_eq_some hf
      rw [List.mem_filter] at hmem
      rcases hA vt hmem.1 hvt with hused | hexp
      · rw [Option.isSome_iff_ne_none] at hused
        rw [Option.isNone_iff_eq_none] at hmem
        exact absurd hmem.2 hused
      · simp [reset_password, hf, hexp]
  · intro hB
    cases hf : (db.resetTokens.filter (fun t => t.used_at.isNone)).find?
        (fun t => verify rawToken t.token_hash) with
    | none => simp [reset_password, hf] at hB
    | some vt =>
      by_cases hexp : vt.expires_at < now1
      · simp [reset_password, hf, hexp] at hB
      · cases hu : db.users.find? (fun u => u.id == vt.user_id) with
        | none => simp [reset_password, hf, hexp, hu] at hB
        | some user =>
          cases hact : user.is_active with
          | false => simp [reset_password, hf, hexp, hu, hact] at hB
          | true =>
            cases hval : (validate p1 (some user.username)).valid with
            | false => simp [reset_password, hf, hexp, hu, hact, hval] at hB
            | true =>
              have hdb1 : db1 =
                  { db with
                    users := (updateFirst (fun u => u.id == vt.user_id)
                      (fun u => { u with
                                  password_hash := some newHash1,
                                  updated_at := some now1 }) db.users),
                    resetTokens := (updateFirst
                      (fun t => t.used_at.isNone && verify rawToken t.token_hash)
                      (fun t => { t with used_at := some now1 }) db.resetTokens) } := by
                have := hB.symm
                simp [reset_password, hf, hexp, hu, hact, hval] at this
                exact this
              subst hdb1
              have hnone : ((updateFirst
                  (fun t => t.used_at.isNone && verify rawToken t.token_hash)
                  (fun t => { t with used_at := some now1 })
                  db.resetTokens).filter (fun t => t.used_at.isNone)).find?
                  (fun t => verify rawToken t.token_hash) = none := by
                rw [find?_filter_eq]
                refine find?_updateFirst_none _ _ _ (fun x => ?_) hUniq
                simp
              simp [reset_password, hnone]

/-- Verifier of the C2 witness: raw token equality with the stored value. -/
def c2Verify : String → String → Bool := fun raw h => raw == h

/-- Validator of the C2 witness: accepts every new password. -/
def c2Validate : String → Option String → PasswordValidationResult :=
  fun _ _ => ⟨true, none⟩

/-- Database of the C2 witness: user 1 with one unused reset token. -/
def c2DB : DB :=
  { users := [{ id := 1, username := "alice" }],
    resetTokens := [{ id := 10, user_id := 1, token_hash := "RAW", expires_at := 100 }] }

/-- The C2 witness database after the successful first redemption. -/
def c2DB1 : DB :=
  { users := [{ id := 1, username := "alice", password_hash := some "NH1", updated_at := some 50 }],
    resetTokens := [{ id := 10, user_id := 1, token_hash := "RAW", expires_at := 100, used_at := some 50 }] }

/-- Witness for C2 at a concrete database: the first redemption of "RAW"
succeeds and produces `c2DB1`, against which the second redemption fails. -/
theorem reset_token_single_use_witness :
    ((∀ t ∈ c2DB.resetTokens, c2Verify "RAW" t.token_hash = true →
        t.used_at.isSome = true ∨ t.expires_at < 50) →
      (reset_password c2Verify c2Validate "NH1" 50 c2DB "RAW" "NewPass1").2 = c2DB
      ∧ (reset_password c2Verify c2Validate "NH1" 50 c2DB "RAW" "NewPass1").1 ≠ .ok)
    ∧ (reset_password c2Verify c2Validate "NH1" 50 c2DB "RAW" "NewPass1" = (.ok, c2DB1) →
      reset_password c2Verify c2Validate "NH2" 60 c2DB1 "RAW" "NewPass2"
        = (.httpError 400 "Invalid or expired reset token", c2DB1)) :=
  reset_token_single_use c2Verify c2Validate "NH1" "NH2" 50 60 c2DB c2DB1 "RAW"
    "NewPass1" "NewPass2" (by decide)

end ECM
